import Mathlib

/-!
Shallow embedding of the two microservices of `ml_microservices_lab`
(`src/service_a/main.py`, `src/service_b/main.py`).

Service A (Front Service) exposes `POST /process`: it logs the input and,
when `forward_to_model` is set, issues one outbound POST to Service B and
relays the decoded JSON body; any `requests.RequestException` (connection
failure, DNS failure, timeout, undecodable body) is turned into an
`HTTPException` with status 503.

Service B (Back Service) exposes `POST /predict`: it draws a random class
from a fixed five-element list, a random confidence in `[0.7, 0.99]`
rounded to two decimals, and returns the input's length together with a
formatted message.

Python floats are embedded as rationals; Python's `round` and `"%.1f"`
formatting use round-half-to-even, embedded explicitly below.  The
outbound HTTP call of Service A is embedded as an explicit oracle
parameter, and `process_input` additionally returns the list of outbound
POSTs it performed, so that "no outbound call occurs" is expressible.
-/

/-- Decoded JSON values, the result of `response.json()`. -/
inductive Json where
  | null : Json
  | bool (b : Bool) : Json
  | num (q : ℚ) : Json
  | str (s : String) : Json
  | arr (l : List Json) : Json
  | obj (l : List (String × Json)) : Json
deriving Repr

/-- Python's `round` applied to an exact rational: round half to even. -/
def roundHalfEven (q : ℚ) : ℤ :=
  if q - (⌊q⌋ : ℚ) < 1/2 then ⌊q⌋
  else if 1/2 < q - (⌊q⌋ : ℚ) then ⌊q⌋ + 1
  else if ⌊q⌋ % 2 = 0 then ⌊q⌋ else ⌊q⌋ + 1

/-- `round(q, 2)`: round to two decimal places, half to even. -/
def round2 (q : ℚ) : ℚ := (roundHalfEven (100 * q) : ℚ) / 100

/-- Python's `f"{q:.1f}"` for a nonnegative rational: round half to even
at one decimal and print one digit after the point. -/
def formatFixed1 (q : ℚ) : String :=
  let n := roundHalfEven (10 * q)
  toString (n / 10) ++ "." ++ toString (n % 10)

namespace ServiceA

/-- `class InputData(BaseModel)` of `src/service_a/main.py`: `data: str`,
`forward_to_model: bool = True`. -/
structure InputData where
  data : String
  forward_to_model : Bool := true
deriving Repr, DecidableEq

/-- The body `{"input": input_data.data}` of the outbound POST
(the Back Service's `ForwardRequest`). -/
structure ForwardRequest where
  input : String
deriving Repr, DecidableEq

/-- `SERVICE_B_URL = "http://localhost:8001/predict"`. -/
def SERVICE_B_URL : String := "http://localhost:8001/predict"

/-- The failure classes of `requests.RequestException` that the
`except` clause of `process_input` catches.  All are handled alike. -/
inductive FailureKind where
  | timeout : FailureKind
  | connectionError : FailureKind
  | dnsFailure : FailureKind
  | invalidJsonBody : FailureKind
  | other : FailureKind
deriving Repr, DecidableEq

/-- Outcome of `requests.post(...)` followed by `response.json()`:
either a `RequestException` with its message `str(e)`, or an HTTP
response (any status code) whose body decoded to `body`. -/
inductive CallOutcome where
  | failure (kind : FailureKind) (msg : String) : CallOutcome
  | response (statusCode : Nat) (body : Json) : CallOutcome

/-- Result of `POST /process`: a 200 JSON object, or an
`HTTPException(status_code, detail)`. -/
inductive ProcessResult where
  | ok (body : List (String × Json)) : ProcessResult
  | httpError (status_code : Nat) (detail : String) : ProcessResult

/-- Whether a `ProcessResult` is an `HTTPException` (a failure). -/
def ProcessResult.isError : ProcessResult → Bool
  | .ok _ => false
  | .httpError _ _ => true

/-- A record of one outbound `requests.post(url, json=body, timeout=t)`. -/
structure OutboundPost where
  url : String
  body : ForwardRequest
  timeout : Nat
deriving Repr, DecidableEq

/-- `process_input` of `src/service_a/main.py`.  The network is the
oracle `backend` (mapping url, body and timeout to the call's outcome);
the second component of the result lists the outbound POSTs performed. -/
def process_input (input_data : InputData)
    (backend : String → ForwardRequest → Nat → CallOutcome) :
    ProcessResult × List OutboundPost :=
  if input_data.forward_to_model then
    let req : ForwardRequest := ⟨input_data.data⟩
    match backend SERVICE_B_URL req 3 with
    | .response _ body =>
        (.ok [("status", .str "Input logged successfully"),
              ("model_prediction", body)],
         [⟨SERVICE_B_URL, req, 3⟩])
    | .failure _ msg =>
        (.httpError 503 ("Service B is unavailable: " ++ msg),
         [⟨SERVICE_B_URL, req, 3⟩])
  else
    (.ok [("status", .str "Input logged successfully")], [])

/-- `read_root` of `src/service_a/main.py` (`GET /`). -/
def read_root : List (String × Json) :=
  [("service", .str "Service A - Input Logger"), ("status", .str "running")]

/-- `health_check` of `src/service_a/main.py` (`GET /health`). -/
def health_check : List (String × Json) :=
  [("service", .str "Service A"), ("status", .str "healthy")]

end ServiceA

namespace ServiceB

/-- `class PredictionRequest(BaseModel)` of `src/service_b/main.py`. -/
structure PredictionRequest where
  input : String
deriving Repr, DecidableEq

/-- The two random draws `predict` makes, in order: the index drawn by
`random.choice` (uniform below the list length; embedded as an arbitrary
natural taken modulo the length) and the unit draw of `random.uniform`
(`uniform(a, b) = a + (b - a) * random()`). -/
structure RandGen where
  choiceIdx : Nat
  unitDraw : ℚ
deriving Repr, DecidableEq

/-- `random.choice(l)`: a uniformly drawn element of `l`. -/
def randomChoice (g : RandGen) (l : List String) : String :=
  l.getD (g.choiceIdx % l.length) ""

/-- `random.uniform(a, b) = a + (b - a) * random()`. -/
def randomUniform (g : RandGen) (a b : ℚ) : ℚ :=
  a + (b - a) * g.unitDraw

/-- `class SimpleMlModel` of `src/service_b/main.py`: its only state is
the list `self.classes` set in `__init__`. -/
structure SimpleMlModel where
  classes : List String
deriving Repr, DecidableEq

/-- `SimpleMlModel.__init__`: `self.classes = ["cat", "dog", "bird",
"fish", "rabbit"]`. -/
def SimpleMlModel.init : SimpleMlModel :=
  ⟨["cat", "dog", "bird", "fish", "rabbit"]⟩

/-- The dict returned by `SimpleMlModel.predict`. -/
structure PredictionResult where
  cls : String
  confidence : ℚ
  input_length : Nat
deriving Repr, DecidableEq

/-- `SimpleMlModel.predict` of `src/service_b/main.py`. -/
def SimpleMlModel.predict (m : SimpleMlModel) (input_text : String)
    (g : RandGen) : PredictionResult :=
  let predicted_class := randomChoice g m.classes
  let confidence := round2 (randomUniform g (7/10) (99/100))
  { cls := predicted_class
    confidence := confidence
    input_length := input_text.length }

/-- `model = SimpleMlModel()`: the single process-wide model instance. -/
def model : SimpleMlModel := SimpleMlModel.init

/-- The response of `POST /predict`. -/
structure PredictionResponse where
  prediction : PredictionResult
  message : String
deriving Repr, DecidableEq

/-- The `predict` endpoint of `src/service_b/main.py` (`POST /predict`). -/
def predict (request : PredictionRequest) (g : RandGen) : PredictionResponse :=
  let prediction := model.predict request.input g
  { prediction := prediction
    message := "Predicted class: " ++ prediction.cls ++ " with "
      ++ formatFixed1 (prediction.confidence * 100) ++ "% confidence" }

/-- `read_root` of `src/service_b/main.py` (`GET /`). -/
def read_root : List (String × Json) :=
  [("service", .str "Service B - ML Prediction"), ("status", .str "running")]

/-- `health_check` of `src/service_b/main.py` (`GET /health`). -/
def health_check : List (String × Json) :=
  [("service", .str "Service B"), ("status", .str "healthy")]

end ServiceB

/-! ## Helper lemmas about round-half-even -/

/-- Rounding half to even never overshoots an integer upper bound. -/
lemma roundHalfEven_le {q : ℚ} {n : ℤ} (h : q ≤ (n : ℚ)) :
    roundHalfEven q ≤ n := by
  have hf : ⌊q⌋ ≤ n := by
    have h1 := Int.floor_mono h
    simpa using h1
  have hfl : (⌊q⌋ : ℚ) ≤ q := Int.floor_le q
  have hsucc : 1/2 ≤ q - (⌊q⌋ : ℚ) → ⌊q⌋ + 1 ≤ n := by
    intro hhalf
    by_contra hc
    have hn : n = ⌊q⌋ := by omega
    rw [hn] at h
    linarith
  unfold roundHalfEven
  split_ifs with h1 h2 h3
  · exact hf
  · exact hsucc (le_of_lt h2)
  · exact hf
  · exact hsucc (le_of_not_lt h1)

/-- Rounding half to even never undershoots an integer lower bound. -/
lemma le_roundHalfEven {q : ℚ} {n : ℤ} (h : (n : ℚ) ≤ q) :
    n ≤ roundHalfEven q := by
  have hf : n ≤ ⌊q⌋ := Int.le_floor.mpr h
  unfold roundHalfEven
  split_ifs <;> omega

/-! ## Theorems about Service A's `process_input` -/

namespace ServiceA

/-- **C1.** For a valid `InputData` with `forward_to_model = true`, when
the Back Service call succeeds (any HTTP response whose body decodes to
`body`), `POST /process` returns the 200 object whose `status` field is
`"Input logged successfully"` and whose `model_prediction` field is
exactly `body`, and the single outbound POST carries exactly the body
`{input: data}` (to `SERVICE_B_URL`, timeout 3). -/
theorem process_forward_success (d : String)
    (backend : String → ForwardRequest → Nat → CallOutcome)
    (code : Nat) (body : Json)
    (h : backend SERVICE_B_URL ⟨d⟩ 3 = .response code body) :
    process_input ⟨d, true⟩ backend =
      (.ok [("status", .str "Input logged successfully"),
            ("model_prediction", body)],
       [⟨SERVICE_B_URL, ⟨d⟩, 3⟩]) := by
  simp [process_input, h]

/-- Witness for `process_forward_success` at a concrete input and
backend. -/
theorem process_forward_success_witness :
    process_input ⟨"hi", true⟩
        (fun _ _ _ => .response 200 (.str "pong")) =
      (.ok [("status", .str "Input logged successfully"),
            ("model_prediction", .str "pong")],
       [⟨SERVICE_B_URL, ⟨"hi"⟩, 3⟩]) :=
  process_forward_success "hi" (fun _ _ _ => .response 200 (.str "pong"))
    200 (.str "pong") rfl

/-- **C3.** With `forward_to_model = false`, `POST /process` returns
exactly `{status: "Input logged successfully"}` (no `model_prediction`
field) and performs no outbound HTTP call, whatever the network would
have answered. -/
theorem process_no_forward (d : String)
    (backend : String → ForwardRequest → Nat → CallOutcome) :
    process_input ⟨d, false⟩ backend =
      (.ok [("status", .str "Input logged successfully")], []) := by
  simp [process_input]

/-- **C9.** When forwarding is enabled and the Back Service answers with
any HTTP status code — including a 4xx or 5xx error status — with a
JSON-decodable body, `POST /process` reports success with that body as
`model_prediction`: HTTP-level errors of the Back Service are never
surfaced as failures. -/
theorem process_ignores_http_status (d : String)
    (backend : String → ForwardRequest → Nat → CallOutcome)
    (code : Nat) (body : Json)
    (h : backend SERVICE_B_URL ⟨d⟩ 3 = .response code body) :
    (process_input ⟨d, true⟩ backend).1 =
        .ok [("status", .str "Input logged successfully"),
             ("model_prediction", body)]
      ∧ (process_input ⟨d, true⟩ backend).1.isError = false := by
  simp [process_input, h, ProcessResult.isError]

/-- Witness for `process_ignores_http_status`: a 500 answer from the
Back Service is still relayed as success. -/
theorem process_ignores_http_status_witness :
    (process_input ⟨"x", true⟩
        (fun _ _ _ => .response 500 (.obj [("detail", .str "boom")]))).1 =
        .ok [("status", .str "Input logged successfully"),
             ("model_prediction", .obj [("detail", .str "boom")])]
      ∧ (process_input ⟨"x", true⟩
          (fun _ _ _ => .response 500 (.obj [("detail", .str "boom")]))).1.isError
          = false :=
  process_ignores_http_status "x"
    (fun _ _ _ => .response 500 (.obj [("detail", .str "boom")]))
    500 (.obj [("detail", .str "boom")]) rfl

/-- **C2.** `POST /process` fails iff `forward_to_model` is true and the
outbound call raised (transport failure or timeout); a failure is
answered with HTTP 503 whose detail contains the underlying failure
text; at most one outbound call is made (no retry); a timeout is handled
exactly like a connection failure; with forwarding off the request
always succeeds. -/
theorem process_error_characterization (i : InputData)
    (backend : String → ForwardRequest → Nat → CallOutcome) :
    ((process_input i backend).1.isError = true ↔
        i.forward_to_model = true ∧
          ∃ k m, backend SERVICE_B_URL ⟨i.data⟩ 3 = .failure k m)
    ∧ (∀ k m, i.forward_to_model = true →
        backend SERVICE_B_URL ⟨i.data⟩ 3 = .failure k m →
        (process_input i backend).1 =
          .httpError 503 ("Service B is unavailable: " ++ m))
    ∧ (process_input i backend).2.length ≤ 1
    ∧ (∀ (b1 b2 : String → ForwardRequest → Nat → CallOutcome) (m : String),
        b1 SERVICE_B_URL ⟨i.data⟩ 3 = .failure .timeout m →
        b2 SERVICE_B_URL ⟨i.data⟩ 3 = .failure .connectionError m →
        (process_input i b1).1 = (process_input i b2).1)
    ∧ (i.forward_to_model = false →
        (process_input i backend).1 =
          .ok [("status", .str "Input logged successfully")]) := by
  obtain ⟨d, f⟩ := i
  refine ⟨?_, ?_, ?_, ?_, ?_⟩
  · cases f
    · simp [process_input, ProcessResult.isError]
    · cases h : backend SERVICE_B_URL ⟨d⟩ 3 with
      | failure k m =>
          simp [process_input, h, ProcessResult.isError]
      | response c b =>
          simp [process_input, h, ProcessResult.isError]
  · intro k m hf hb
    subst hf
    simp [process_input, hb]
  · cases f <;> cases h : backend SERVICE_B_URL ⟨d⟩ 3 <;>
      simp [process_input, h]
  · intro b1 b2 m h1 h2
    cases f
    · simp [process_input]
    · simp [process_input, h1, h2]
  · intro hf
    subst hf
    simp [process_input]

/-- Witness for `process_error_characterization`: a timed-out call is
answered with a 503 carrying the failure text. -/
theorem process_error_characterization_witness :
    (process_input ⟨"x", true⟩
        (fun _ _ _ => .failure .timeout "read timed out")).1 =
      .httpError 503 ("Service B is unavailable: " ++ "read timed out") :=
  (process_error_characterization ⟨"x", true⟩
      (fun _ _ _ => .failure .timeout "read timed out")).2.1
    .timeout "read timed out" rfl rfl

end ServiceA

/-! ## Theorems about Service B's `predict` -/

namespace ServiceB

/-- **C4.** The label list of the process-wide model instance is exactly
`["cat", "dog", "bird", "fish", "rabbit"]`, it is the list set once by
`SimpleMlModel.__init__`, and every prediction's `class` field is a
member of it (the Back Service's operations are pure functions of the
model value, so no operation mutates it). -/
theorem predict_class_in_fixed_labels :
    model = SimpleMlModel.init
    ∧ model.classes = ["cat", "dog", "bird", "fish", "rabbit"]
    ∧ ∀ (request : PredictionRequest) (g : RandGen),
        (predict request g).prediction.cls ∈ model.classes := by
  refine ⟨rfl, rfl, ?_⟩
  intro request g
  have hcls : (predict request g).prediction.cls =
      (["cat", "dog", "bird", "fish", "rabbit"] : List String).getD
        (g.choiceIdx % 5) "" := rfl
  rw [hcls]
  have hk : g.choiceIdx % 5 < 5 := Nat.mod_lt _ (by norm_num)
  set k := g.choiceIdx % 5 with hkdef
  interval_cases k <;> decide

/-- **C5.** The `input_length` field of every prediction equals the
character count of the request's input string (a natural number, hence
nonnegative); in particular `"hello"` yields `input_length = 5`. -/
theorem predict_input_length :
    (∀ (request : PredictionRequest) (g : RandGen),
        (predict request g).prediction.input_length = request.input.length)
    ∧ ∀ g : RandGen, (predict ⟨"hello"⟩ g).prediction.input_length = 5 := by
  exact ⟨fun _ _ => rfl, fun _ => rfl⟩

/-- **C6.** Whenever the unit draw of `random.uniform` lies in `[0, 1]`,
the `confidence` field of the prediction lies in `[0.70, 0.99]` and is
an integer number of hundredths. -/
theorem predict_confidence_bounds (g : RandGen)
    (h0 : 0 ≤ g.unitDraw) (h1 : g.unitDraw ≤ 1) :
    ∀ request : PredictionRequest,
      7/10 ≤ (predict request g).prediction.confidence
      ∧ (predict request g).prediction.confidence ≤ 99/100
      ∧ ∃ n : ℤ, (predict request g).prediction.confidence = (n : ℚ) / 100 := by
  intro request
  have hc : (predict request g).prediction.confidence =
      (roundHalfEven (100 * randomUniform g (7/10) (99/100)) : ℚ) / 100 := rfl
  have hx : 100 * randomUniform g (7/10) (99/100) = 70 + 29 * g.unitDraw := by
    unfold randomUniform
    ring
  have h29l : (0 : ℚ) ≤ 29 * g.unitDraw := by positivity
  have h29u : 29 * g.unitDraw ≤ 29 := by nlinarith
  have hlo : (70 : ℤ) ≤ roundHalfEven (100 * randomUniform g (7/10) (99/100)) := by
    apply le_roundHalfEven
    rw [hx]
    push_cast
    linarith
  have hhi : roundHalfEven (100 * randomUniform g (7/10) (99/100)) ≤ (99 : ℤ) := by
    apply roundHalfEven_le
    rw [hx]
    push_cast
    linarith
  have hloq : (70 : ℚ) ≤
      (roundHalfEven (100 * randomUniform g (7/10) (99/100)) : ℚ) := by
    exact_mod_cast hlo
  have hhiq : (roundHalfEven (100 * randomUniform g (7/10) (99/100)) : ℚ) ≤ 99 := by
    exact_mod_cast hhi
  refine ⟨?_, ?_, ?_⟩
  · rw [hc]; linarith
  · rw [hc]; linarith
  · exact ⟨roundHalfEven (100 * randomUniform g (7/10) (99/100)), hc⟩

/-- Witness for `predict_confidence_bounds` at the concrete draw `1/2`
(confidence `round(0.845, 2) = 0.84`). -/
theorem predict_confidence_bounds_witness :
    7/10 ≤ (predict ⟨"a"⟩ ⟨0, 1/2⟩).prediction.confidence
    ∧ (predict ⟨"a"⟩ ⟨0, 1/2⟩).prediction.confidence ≤ 99/100
    ∧ ∃ n : ℤ, (predict ⟨"a"⟩ ⟨0, 1/2⟩).prediction.confidence = (n : ℚ) / 100 :=
  predict_confidence_bounds ⟨0, 1/2⟩ (by norm_num) (by norm_num) ⟨"a"⟩

/-- **C7.** The `message` field of every `POST /predict` response is
exactly `"Predicted class: {class} with {confidence*100 formatted to 1
decimal}% confidence"` built from the `prediction` fields of the same
response; in particular the returned class occurs inside it verbatim. -/
theorem predict_message_format :
    ∀ (request : PredictionRequest) (g : RandGen),
      (predict request g).message =
        "Predicted class: " ++ (predict request g).prediction.cls ++ " with "
          ++ formatFixed1 ((predict request g).prediction.confidence * 100)
          ++ "% confidence"
      ∧ ∃ pre post : String,
          (predict request g).message =
            pre ++ (predict request g).prediction.cls ++ post := by
  intro request g
  refine ⟨rfl, "Predicted class: ",
    " with " ++ formatFixed1 ((predict request g).prediction.confidence * 100)
      ++ "% confidence", ?_⟩
  simp [predict, String.append_assoc]

/-- **C10.** The `class` and `confidence` of a prediction do not depend
on the input text: from the same random-generator state, two inputs give
the same class and the same confidence, and the two results differ at
most in `input_length` (the endpoint's `message` is also identical). -/
theorem predict_noninterference :
    ∀ (m : SimpleMlModel) (s1 s2 : String) (g : RandGen),
      (m.predict s1 g).cls = (m.predict s2 g).cls
      ∧ (m.predict s1 g).confidence = (m.predict s2 g).confidence
      ∧ m.predict s1 g = { m.predict s2 g with input_length := s1.length }
      ∧ (predict ⟨s1⟩ g).message = (predict ⟨s2⟩ g).message := by
  intro m s1 s2 g
  exact ⟨rfl, rfl, rfl, rfl⟩

end ServiceB

/-- **C8.** `GET /health` on either service always answers with a fixed
payload whose `status` is `"healthy"` and whose `service` names the
service, and `GET /` on either service always answers with a fixed
payload whose `status` is `"running"`: these handlers are constants with
no inputs and no failure mode. -/
theorem fixed_status_payloads :
    ServiceA.health_check.lookup "status" = some (.str "healthy")
    ∧ ServiceB.health_check.lookup "status" = some (.str "healthy")
    ∧ ServiceA.read_root.lookup "status" = some (.str "running")
    ∧ ServiceB.read_root.lookup "status" = some (.str "running")
    ∧ ServiceA.health_check.lookup "service" = some (.str "Service A")
    ∧ ServiceB.health_check.lookup "service" = some (.str "Service B") := by
  exact ⟨rfl, rfl, rfl, rfl, rfl, rfl⟩
